import Mathlib

/-!
Verification of the dynamic-auth chat application
(`chat_application/chat_app.py`) against its specification.

The embedding models the module as pure functions over an explicit external
state (`WState`): the SQL warehouse tables, the identity directory, and the
process-resident credential cache.  Every outbound network call is recorded
as an `Event` in a trace and consumes one index of a failure oracle
(`Env.fails`), so that error-propagation and side-effect claims can be
stated about the call trace.  JSON response bodies are modelled by a `Json`
inductive together with Python's truthiness, iteration, and `str()`
semantics, which `_extract_response_text` relies on.
-/

namespace ChatApp

/-- JSON values, as produced by parsing a response body in Python. -/
inductive Json where
  | null : Json
  | bool (b : Bool) : Json
  | num (n : Int) : Json
  | str (s : String) : Json
  | arr (items : List Json) : Json
  | obj (fields : List (String × Json)) : Json

/-- Python exceptions that the embedded code can raise. -/
inductive PyErr where
  | runtimeError (msg : String)
  | typeError (msg : String)
  | attributeError (msg : String)
  | sdkError (callIdx : Nat)
deriving DecidableEq, Repr

/-- `d.get(k)` on a Python dict (first binding wins; Python keys are unique). -/
def dictFind {α : Type} (m : List (String × α)) (k : String) : Option α :=
  (m.find? (fun r => r.1 == k)).map (fun r => r.2)

/-- Python truthiness of a JSON value (`if not output: ...`). -/
def Json.falsy : Json → Bool
  | .null => true
  | .bool b => !b
  | .num n => n == 0
  | .str s => s == ""
  | .arr items => items.isEmpty
  | .obj fields => fields.isEmpty

mutual

/-- Python `repr()` of a JSON value. -/
def pyRepr : Json → String
  | .null => "None"
  | .bool true => "True"
  | .bool false => "False"
  | .num n => toString n
  | .str s => "'" ++ s ++ "'"
  | .arr items => "[" ++ String.intercalate ", " (pyReprList items) ++ "]"
  | .obj fields => "\x7b" ++ String.intercalate ", " (pyReprObj fields) ++ "\x7d"

def pyReprList : List Json → List String
  | [] => []
  | v :: vs => pyRepr v :: pyReprList vs

def pyReprObj : List (String × Json) → List String
  | [] => []
  | f :: fs => ("'" ++ f.1 ++ "': " ++ pyRepr f.2) :: pyReprObj fs

end

/-- Python `str()` of a JSON value (strings print without quotes). -/
def pyStr : Json → String
  | .str s => s
  | v => pyRepr v

/-- Python iteration `for item in v`: lists yield their items, dicts yield
their keys, strings yield their characters; other values raise `TypeError`. -/
def pyIter : Json → Except PyErr (List Json)
  | .arr items => Except.ok items
  | .obj fields => Except.ok (fields.map (fun f => Json.str f.1))
  | .str s => Except.ok (s.toList.map (fun c => Json.str (String.singleton c)))
  | .null => Except.error (PyErr.typeError "'NoneType' object is not iterable")
  | .bool _ => Except.error (PyErr.typeError "'bool' object is not iterable")
  | .num _ => Except.error (PyErr.typeError "'int' object is not iterable")

/-- Does `item.get("type") == s` hold in Python?  `get` returns `None` when
the key is absent, and `None == s` is `False`; non-string values also
compare unequal to a string. -/
def jsonEqStr (v : Option Json) (s : String) : Bool :=
  match v with
  | some (Json.str t) => t == s
  | _ => false

/-- Python `repr(list(d.keys()))` for a response dict. -/
def keysRepr (raw : List (String × Json)) : String :=
  pyRepr (Json.arr (raw.map (fun f => Json.str f.1)))

/-- The inner block loop of `_extract_response_text`:
`for block in item.get("content", []): ...`.  Each block must be a dict
(`block.get` on a non-dict raises `AttributeError`); blocks whose `type` is
`"output_text"` append `block.get("text", "")`. -/
def foldBlocks : List Json → List Json → Except PyErr (List Json)
  | [], parts => Except.ok parts
  | b :: bs, parts =>
    match b with
    | Json.obj bf =>
      if jsonEqStr (dictFind bf "type") "output_text" then
        foldBlocks bs (parts ++ [(dictFind bf "text").getD (Json.str "")])
      else
        foldBlocks bs parts
    | Json.str _ => Except.error (PyErr.attributeError "'str' object has no attribute 'get'")
    | _ => Except.error (PyErr.attributeError "object has no attribute 'get'")

/-- One iteration of the item loop of `_extract_response_text`. -/
def extractItem (item : Json) (parts : List Json) : Except PyErr (List Json) :=
  match item with
  | Json.obj fs =>
    if jsonEqStr (dictFind fs "type") "message" then
      match pyIter ((dictFind fs "content").getD (Json.arr [])) with
      | Except.error e => Except.error e
      | Except.ok blocks => foldBlocks blocks parts
    else if fs.any (fun f => f.1 == "text") then
      Except.ok (parts ++ [(dictFind fs "text").getD Json.null])
    else
      Except.ok parts
  | Json.str s => Except.ok (parts ++ [Json.str s])
  | _ => Except.ok parts

/-- The item loop of `_extract_response_text`. -/
def foldItems : List Json → List Json → Except PyErr (List Json)
  | [], parts => Except.ok parts
  | it :: its, parts =>
    match extractItem it parts with
    | Except.error e => Except.error e
    | Except.ok parts' => foldItems its parts'

/-- Python `sep.join(parts)`: raises `TypeError` when an element is not a
string. -/
def pyJoin (sep : String) (parts : List Json) : Except PyErr String :=
  if parts.all (fun p => match p with | Json.str _ => true | _ => false) then
    Except.ok (String.intercalate sep
      (parts.map (fun p => match p with | Json.str s => s | _ => "")))
  else
    Except.error (PyErr.typeError "sequence item: expected str instance")

/-- `raw.get("output", raw.get("outputs", raw.get("predictions")))`: the
value of the first of the three keys that is present (even if that value is
null — `get` only falls to the default when the key is absent). -/
def outputOf (raw : List (String × Json)) : Option Json :=
  match dictFind raw "output" with
  | some v => some v
  | none =>
    match dictFind raw "outputs" with
    | some v => some v
    | none => dictFind raw "predictions"

/-- `_extract_response_text(raw)`: extract text from a raw Responses API
JSON response.  A missing or falsy output yields the diagnostic string. -/
def _extract_response_text (raw : List (String × Json)) : Except PyErr String :=
  match outputOf raw with
  | none => Except.ok ("No response parsed. Raw response keys: " ++ keysRepr raw)
  | some output =>
    if output.falsy then
      Except.ok ("No response parsed. Raw response keys: " ++ keysRepr raw)
    else
      match pyIter output with
      | Except.error e => Except.error e
      | Except.ok items =>
        match foldItems items [] with
        | Except.error e => Except.error e
        | Except.ok text_parts =>
          if text_parts.isEmpty then Except.ok (pyStr output)
          else pyJoin "\n\n" text_parts

/-! ## The provisioning workflow (`use_credentials`) and router (`query_endpoint`) -/

/-- The configuration values read from `config.yaml` at module load. -/
structure Config where
  SERVING_ENDPOINT_NAME : String
  GENIE_SPACE_ID : String
  HOST : String
  CATALOG : String
  SCHEMA : String
  TABLE : String
  WAREHOUSE_ID : String
  SP_MAPPING_TABLE : String
  CLIENT_MAPPING_TABLE : String
deriving DecidableEq, Repr

/-- A service principal in the identity directory:
`display_name`, stable `application_id`, and the internal `id` (the
"numeric id" used for secret generation). -/
structure ServicePrincipal where
  display_name : String
  application_id : String
  id : String
  active : Bool
deriving DecidableEq, Repr

/-- `WorkspaceClient(host=..., client_id=..., client_secret=...)` — an
SP-authenticated client as cached in `_sp_clients`. -/
structure WorkspaceClient where
  host : String
  client_id : String
  client_secret : String
deriving DecidableEq, Repr

/-- A chat message `{"role": ..., "content": ...}`. -/
structure ChatMsg where
  role : String
  content : String
deriving DecidableEq, Repr

/-- The structured form of each SQL statement string built by the module.
`SqlStmt.render` gives the exact statement text sent to the warehouse. -/
inductive SqlStmt where
  | selectPrincipal (username : String)
  | insertPrincipal (username : String) (service_principal_id : String)
  | mergeClientMapping (username : String) (client_id : String)
  | grantUseCatalog (principal : String)
  | grantUseSchema (principal : String)
  | grantSelectTable (principal : String)
deriving DecidableEq, Repr

/-- The statement text each `SqlStmt` stands for, exactly as interpolated in
`chat_app.py` (the `username` column of the client-mapping table holds the
SP application id). -/
def SqlStmt.render (cfg : Config) : SqlStmt → String
  | .selectPrincipal u =>
    "SELECT service_principal_id FROM " ++ cfg.SP_MAPPING_TABLE ++
    " WHERE username = '" ++ u ++ "'"
  | .insertPrincipal u a =>
    "INSERT INTO " ++ cfg.SP_MAPPING_TABLE ++
    " (username, service_principal_id) VALUES ('" ++ u ++ "', '" ++ a ++ "')"
  | .mergeClientMapping a c =>
    "MERGE INTO " ++ cfg.CLIENT_MAPPING_TABLE ++ " AS target USING (SELECT '" ++ a ++
    "' AS username, '" ++ c ++ "' AS client_id) AS source " ++
    "ON target.username = source.username " ++
    "WHEN MATCHED THEN UPDATE SET target.client_id = source.client_id " ++
    "WHEN NOT MATCHED THEN INSERT (username, client_id) VALUES (source.username, source.client_id)"
  | .grantUseCatalog a =>
    "GRANT USE CATALOG ON CATALOG `" ++ cfg.CATALOG ++ "` TO `" ++ a ++ "`"
  | .grantUseSchema a =>
    "GRANT USE SCHEMA ON SCHEMA `" ++ cfg.CATALOG ++ "`.`" ++ cfg.SCHEMA ++
    "` TO `" ++ a ++ "`"
  | .grantSelectTable a =>
    "GRANT SELECT ON TABLE `" ++ cfg.CATALOG ++ "`.`" ++ cfg.SCHEMA ++ "`.`" ++
    cfg.TABLE ++ "` TO `" ++ a ++ "`"

/-- The external state the module mutates: the two warehouse tables, the
identity directory, and the process-resident `_sp_clients` cache (an
insertion-ordered dict, modelled as an association list). -/
structure WState where
  sp_mapping : List (String × String)
  client_mapping : List (String × String)
  directory : List ServicePrincipal
  sp_clients : List (String × WorkspaceClient)
deriving DecidableEq, Repr

/-- One outbound call or cache-relevant action, for the trace. -/
inductive Event where
  | sqlExec (stmt : SqlStmt)
  | spList (filter : String)
  | spCreate (display_name : String) (active : Bool)
  | endpointGet (name : String)
  | aclPatch (path : String) (service_principal_name : String) (permission_level : String)
  | secretPost (path : String)
  | invoke (path : String) (client : Option WorkspaceClient) (messages : List ChatMsg)
deriving DecidableEq, Repr

/-- The environment: which external call (by 0-based index in issue order)
fails, what a fresh principal's ids are, the serving endpoint's internal id,
the minted secret, and the serving endpoint's response to an invocation. -/
structure Env where
  fails : Nat → Bool
  failDetail : Nat → String
  create : String → String × String
  endpoint_id : String
  secret : String → String
  invokeResp : Except String (List (String × Json))

/-- Execution context threaded through the workflow: external state, the
trace of outbound calls, and the number of calls issued so far. -/
structure Ctx where
  st : WState
  trace : List Event
  calls : Nat

/-- Python dict assignment `m[k] = v`: replace in place when the key exists
(insertion order kept), otherwise append. -/
def dictSet {α : Type} (m : List (String × α)) (k : String) (v : α) : List (String × α) :=
  if m.any (fun r => r.1 == k) then
    m.map (fun r => if r.1 == k then (k, v) else r)
  else m ++ [(k, v)]

/-- The effect of the `MERGE` statement on the client-mapping table: when a
row with the source username (the SP application id) is matched, update its
`client_id`; otherwise insert a new row. -/
def upsertClient (m : List (String × String)) (a c : String) : List (String × String) :=
  if m.any (fun r => r.1 == a) then
    m.map (fun r => if r.1 == a then (r.1, c) else r)
  else m ++ [(a, c)]

/-- Semantics of the warehouse executing one statement: `SELECT` filters the
user→principal table, `INSERT` appends, `MERGE` updates the matched row or
inserts, `GRANT` leaves the tables unchanged.  Returns the `data_array`
rows and the updated state. -/
def runSql (stmt : SqlStmt) (st : WState) : List (List String) × WState :=
  match stmt with
  | .selectPrincipal u =>
    ((st.sp_mapping.filter (fun r => r.1 == u)).map (fun r => [r.2]), st)
  | .insertPrincipal u a =>
    ([], { st with sp_mapping := st.sp_mapping ++ [(u, a)] })
  | .mergeClientMapping a c =>
    ([], { st with client_mapping := upsertClient st.client_mapping a c })
  | .grantUseCatalog _ => ([], st)
  | .grantUseSchema _ => ([], st)
  | .grantSelectTable _ => ([], st)

/-- `_execute_sql(statement)`: issue the statement to the warehouse; a
`FAILED` execution status raises `RuntimeError` (and applies no change). -/
def _execute_sql (env : Env) (stmt : SqlStmt) (ctx : Ctx) :
    Except PyErr (List (List String)) × Ctx :=
  let n := ctx.calls
  let ctx' : Ctx := { ctx with trace := ctx.trace ++ [Event.sqlExec stmt], calls := n + 1 }
  if env.fails n then
    (Except.error (PyErr.runtimeError ("SQL execution failed: " ++ env.failDetail n)), ctx')
  else
    let (rows, st') := runSql stmt ctx'.st
    (Except.ok rows, { ctx' with st := st' })

/-- `w.service_principals.list(filter="displayName eq '<dn>'")`: the
directory returns the principals whose display name matches. -/
def service_principals_list (env : Env) (display_name : String) (ctx : Ctx) :
    Except PyErr (List ServicePrincipal) × Ctx :=
  let n := ctx.calls
  let ctx' : Ctx := { ctx with
    trace := ctx.trace ++ [Event.spList ("displayName eq '" ++ display_name ++ "'")],
    calls := n + 1 }
  if env.fails n then (Except.error (PyErr.sdkError n), ctx')
  else (Except.ok (ctx'.st.directory.filter (fun sp => sp.display_name == display_name)), ctx')

/-- `w.service_principals.create(display_name=..., active=True)`: the
directory mints fresh ids (given by the environment) and records the
principal. -/
def service_principals_create (env : Env) (display_name : String) (active : Bool) (ctx : Ctx) :
    Except PyErr ServicePrincipal × Ctx :=
  let n := ctx.calls
  let ctx' : Ctx := { ctx with
    trace := ctx.trace ++ [Event.spCreate display_name active], calls := n + 1 }
  if env.fails n then (Except.error (PyErr.sdkError n), ctx')
  else
    let ids := env.create display_name
    let sp : ServicePrincipal := ⟨display_name, ids.1, ids.2, active⟩
    (Except.ok sp, { ctx' with st := { ctx'.st with directory := ctx'.st.directory ++ [sp] } })

/-- `w.serving_endpoints.get(name=...)`: resolves the endpoint name to its
internal id. -/
def serving_endpoints_get (env : Env) (name : String) (ctx : Ctx) :
    Except PyErr String × Ctx :=
  let n := ctx.calls
  let ctx' : Ctx := { ctx with trace := ctx.trace ++ [Event.endpointGet name], calls := n + 1 }
  if env.fails n then (Except.error (PyErr.sdkError n), ctx')
  else (Except.ok env.endpoint_id, ctx')

/-- `w.api_client.do("PATCH", path, body={"access_control_list": [...]})` —
one ACL grant carrying a single `{service_principal_name, permission_level}`
entry. -/
def api_client_do_patch (env : Env) (path : String) (principal : String)
    (level : String) (ctx : Ctx) : Except PyErr Unit × Ctx :=
  let n := ctx.calls
  let ctx' : Ctx := { ctx with
    trace := ctx.trace ++ [Event.aclPatch path principal level], calls := n + 1 }
  if env.fails n then (Except.error (PyErr.sdkError n), ctx')
  else (Except.ok (), ctx')

/-- Python rendering of `sp_numeric_id` into the f-string path: `None`
prints as `"None"`. -/
def pyStrOpt : Option String → String
  | none => "None"
  | some s => s

/-- The f-string path of the credential-secret request; when the numeric id
was never resolved it embeds `None` verbatim. -/
def secretPath (numeric_id : Option String) : String :=
  "/api/2.0/accounts/servicePrincipals/" ++ pyStrOpt numeric_id ++ "/credentials/secrets"

/-- `w.api_client.do("POST", f".../servicePrincipals/{sp_numeric_id}/credentials/secrets")`:
mints an OAuth secret; the request path embeds the numeric id verbatim. -/
def api_client_do_secret (env : Env) (numeric_id : Option String) (ctx : Ctx) :
    Except PyErr String × Ctx :=
  let n := ctx.calls
  let ctx' : Ctx := { ctx with
    trace := ctx.trace ++ [Event.secretPost (secretPath numeric_id)], calls := n + 1 }
  if env.fails n then (Except.error (PyErr.sdkError n), ctx')
  else (Except.ok (env.secret (secretPath numeric_id)), ctx')

/-- Exception propagation: an error aborts the remaining steps, keeping the
state and trace accumulated so far (Python module state survives a raise). -/
def step {α β : Type} (r : Except PyErr α × Ctx)
    (f : α → Ctx → Except PyErr β × Ctx) : Except PyErr β × Ctx :=
  match r with
  | (Except.error e, ctx) => (Except.error e, ctx)
  | (Except.ok a, ctx) => f a ctx

/-- Python truthiness of `sp_application_id` (`if not sp_application_id`):
`None` and the empty string are falsy. -/
def pyFalsyStrOpt : Option String → Bool
  | none => true
  | some s => s == ""

/-- `use_credentials(user_id, client_id)`: look up or create a service
principal for `user_id` and map it to `client_id`, following
`chat_app.py` step by step.  The lookup reads `data_array[0][0]` — `runSql`
always returns one-column rows for the `SELECT`, so the first row's head is
the stored `service_principal_id`. -/
def use_credentials (cfg : Config) (env : Env) (user_id client_id : String)
    (ctx : Ctx) : Except PyErr String × Ctx :=
  if user_id = "" ∨ client_id = "" then
    (Except.ok "Please provide both User ID and Client ID.", ctx)
  else
    -- 1. Check if a service principal already exists for this user
    step (_execute_sql env (SqlStmt.selectPrincipal user_id) ctx) fun lookup ctx =>
    step
      (match lookup with
       | (v :: _) :: _ =>
         -- a mapping row exists: look up the numeric id needed for secret
         -- generation by listing on the expected display name and matching
         -- on application_id
         step (service_principals_list env ("sp-" ++ user_id) ctx) fun sps ctx =>
           (Except.ok (some v,
             (sps.find? (fun sp => sp.application_id == v)).map (fun sp => sp.id)), ctx)
       | _ => (Except.ok ((none : Option String), (none : Option String)), ctx))
      fun ids ctx =>
    -- 2. If not found (None or empty), create a new SP and record the mapping
    step
      (if pyFalsyStrOpt ids.1 then
        step (service_principals_create env ("sp-" ++ user_id) true ctx) fun sp ctx =>
        step (_execute_sql env (SqlStmt.insertPrincipal user_id sp.application_id) ctx)
          fun _ ctx =>
        (Except.ok (sp.application_id, (some sp.id : Option String)), ctx)
      else
        -- here ids.1 = some v with v nonempty
        (Except.ok ((match ids.1 with | some v => v | none => ""), ids.2), ctx))
      fun resolved ctx =>
    match resolved with
    | (sp_application_id, sp_numeric_id) =>
    -- 3. Upsert the SP-to-client mapping
    step (_execute_sql env (SqlStmt.mergeClientMapping sp_application_id client_id) ctx)
      fun _ ctx =>
    -- 4. Grant CAN_QUERY on the serving endpoint (resolved by name first)
    step (serving_endpoints_get env cfg.SERVING_ENDPOINT_NAME ctx) fun endpoint_id ctx =>
    step (api_client_do_patch env
        ("/api/2.0/permissions/serving-endpoints/" ++ endpoint_id)
        sp_application_id "CAN_QUERY" ctx) fun _ ctx =>
    -- 5. Grant CAN_RUN on the Genie space
    step (api_client_do_patch env ("/api/2.0/permissions/genie/" ++ cfg.GENIE_SPACE_ID)
        sp_application_id "CAN_RUN" ctx) fun _ ctx =>
    -- 6. Grant Unity Catalog read access on the catalog, schema, and table
    step (_execute_sql env (SqlStmt.grantUseCatalog sp_application_id) ctx) fun _ ctx =>
    step (_execute_sql env (SqlStmt.grantUseSchema sp_application_id) ctx) fun _ ctx =>
    step (_execute_sql env (SqlStmt.grantSelectTable sp_application_id) ctx) fun _ ctx =>
    -- 7. Generate an OAuth secret and cache an authenticated client
    step (api_client_do_secret env sp_numeric_id ctx) fun secret ctx =>
    let client : WorkspaceClient := ⟨cfg.HOST, sp_application_id, secret⟩
    ((Except.ok ("Credentials set for user '" ++ user_id ++ "' (SP: " ++
        sp_application_id ++ ") with client '" ++ client_id ++ "'.")),
     { ctx with st := { ctx.st with
         sp_clients := dictSet ctx.st.sp_clients user_id client } })

/-- `query_endpoint(message, history, user_id, client_id)`: build the
message list, pick the SP-authenticated client when one is cached for
`user_id` (falling back to the default client `w`, modelled as `none`),
invoke the serving endpoint inside `try/except`, and extract the response
text.  Only the invocation is guarded by the `try`; an exception raised by
`_extract_response_text` propagates. -/
def query_endpoint (cfg : Config) (env : Env) (message : String)
    (history : List ChatMsg) (user_id client_id : String) (ctx : Ctx) :
    Except PyErr String × Ctx :=
  let messages := (history.map (fun m => ChatMsg.mk m.role m.content)) ++
    [ChatMsg.mk "user" message]
  let client := dictFind ctx.st.sp_clients user_id
  let ctx' : Ctx := { ctx with trace := ctx.trace ++
    [Event.invoke ("/serving-endpoints/" ++ cfg.SERVING_ENDPOINT_NAME ++ "/invocations")
      client messages] }
  match env.invokeResp with
  | Except.error e => (Except.ok ("Error querying endpoint: " ++ e), ctx')
  | Except.ok raw => (_extract_response_text raw, ctx')

/-! ## Derived notions used by the statements -/

/-- An event is a grant call: an ACL patch or one of the three
Unity-Catalog `GRANT` statements. -/
def Event.isGrant : Event → Bool
  | .aclPatch _ _ _ => true
  | .sqlExec (.grantUseCatalog _) => true
  | .sqlExec (.grantUseSchema _) => true
  | .sqlExec (.grantSelectTable _) => true
  | _ => false

/-- An event is a principal-creation call to the identity directory. -/
def Event.isCreate : Event → Bool
  | .spCreate _ _ => true
  | _ => false

/-- An event is the credential-secret minting call. -/
def Event.isSecretPost : Event → Bool
  | .secretPost _ => true
  | _ => false

/-- The numeric id resolution of step 1 of `use_credentials`: list the
directory by the expected display name, take the first principal whose
`application_id` equals the stored mapping value. -/
def resolveNumericId (dir : List ServicePrincipal) (display_name app_id : String) :
    Option String :=
  ((dir.filter (fun sp => sp.display_name == display_name)).find?
    (fun sp => sp.application_id == app_id)).map (fun sp => sp.id)

/-- No external call fails in this environment. -/
def noFail (env : Env) : Prop := ∀ n, env.fails n = false

/-- The events a run appended to the trace it started from. -/
def newEvents (ctx : Ctx) (r : Except PyErr String × Ctx) : List Event :=
  r.2.trace.drop ctx.trace.length

/-! ## Recognized response shapes

The shapes of §4.4 for which extraction is guaranteed to return text
without raising: these predicates carve out the bodies whose `output`
value, when present and truthy, iterates to items that contribute only
string fragments. -/

/-- Are all collected fragments Python strings (so that `join` succeeds)? -/
def strParts (parts : List Json) : Bool :=
  parts.all (fun p => match p with | Json.str _ => true | _ => false)

/-- A content block extraction handles without raising: a dict whose `text`
field, when it would be collected, is a string (or absent, defaulting to
`""`). -/
def recognizedBlock : Json → Bool
  | Json.obj bf =>
    if jsonEqStr (dictFind bf "type") "output_text" then
      match dictFind bf "text" with
      | some (Json.str _) => true
      | none => true
      | some _ => false
    else true
  | _ => false

/-- An output item extraction handles without raising: message items whose
content is a list of recognized blocks (or absent), items whose direct
`text` field is a string (or absent), plain strings, and items of other
types (which the loop skips). -/
def recognizedItem : Json → Bool
  | Json.obj fs =>
    if jsonEqStr (dictFind fs "type") "message" then
      match dictFind fs "content" with
      | some (Json.arr blocks) => blocks.all recognizedBlock
      | none => true
      | some _ => false
    else
      match dictFind fs "text" with
      | some (Json.str _) => true
      | none => true
      | some _ => false
  | _ => true

/-- An output value extraction handles without raising: anything falsy, a
list of recognized items, a dict (iterated as its string keys), or a
string (iterated as its characters). -/
def recognizedOutput (out : Json) : Bool :=
  if out.falsy then true
  else
    match out with
    | Json.arr items => items.all recognizedItem
    | Json.obj _ => true
    | Json.str _ => true
    | _ => false

/-- A response body extraction handles without raising. -/
def recognizedBody (raw : List (String × Json)) : Bool :=
  match outputOf raw with
  | none => true
  | some out => recognizedOutput out

/-! ## Sample concrete configuration, environment, and state, for witnesses -/

def sampleCfg : Config :=
  ⟨"agent-endpoint", "space-1", "https://example.cloud", "main", "sales", "orders",
   "wh-1", "main.auth.sp_map", "main.auth.identity_mappings"⟩

def sampleEnv : Env :=
  ⟨fun _ => false, fun _ => "err", fun dn => ("app-" ++ dn, "num-" ++ dn), "ep-123",
   fun _ => "topsecret", Except.error "connection refused"⟩

def emptyCtx : Ctx := ⟨⟨[], [], [], []⟩, [], 0⟩

/-- Environment whose third external call (index 2: the user→principal
`INSERT` on the create path) reports a failed status. -/
def insertFailEnv : Env := { sampleEnv with fails := fun n => n == 2 }

/-- State with a stored user→principal mapping row for `"u"` but an empty
identity directory, so the stored application id matches no principal. -/
def staleMappingCtx : Ctx := ⟨⟨[("u", "app-x")], [], [], []⟩, [], 0⟩

/-- Environment whose serving endpoint replies with a malformed body:
`output` maps to the number 5, which Python cannot iterate. -/
def badBodyEnv : Env := { sampleEnv with invokeResp := Except.ok [("output", Json.num 5)] }

/-! ## List helper lemmas -/

theorem filter_eq_nil_of_any_eq_false {α : Type} (p : α → Bool) (l : List α)
    (h : l.any p = false) : l.filter p = [] := by
  induction l with
  | nil => rfl
  | cons x xs ih =>
    simp only [List.any_cons, Bool.or_eq_false_iff] at h
    simp [List.filter_cons, h.1, ih h.2]

theorem map_update_eq_self (l : List (String × String)) (a c : String)
    (h : l.any (fun r => r.1 == a) = false) :
    l.map (fun r => if r.1 == a then (r.1, c) else r) = l := by
  induction l with
  | nil => rfl
  | cons x xs ih =>
    simp only [List.any_cons, Bool.or_eq_false_iff] at h
    have hx : ¬((x.1 == a) = true) := by simp [h.1]
    simp only [List.map_cons, if_neg hx, ih h.2]

/-- Upserting into a table without the key appends the row. -/
theorem upsertClient_absent (m : List (String × String)) (a c : String)
    (h : m.any (fun r => r.1 == a) = false) :
    upsertClient m a c = m ++ [(a, c)] := by
  simp [upsertClient, h]

theorem find?_map_update {α : Type} (m : List (String × α)) (k : String) (v : α)
    (h : m.any (fun r => r.1 == k) = true) :
    (m.map (fun r => if r.1 == k then (k, v) else r)).find? (fun r => r.1 == k) =
      some (k, v) := by
  induction m with
  | nil => simp at h
  | cons x xs ih =>
    rw [List.map_cons]
    by_cases hx : (x.1 == k) = true
    · rw [if_pos hx, List.find?_cons_of_pos _ (by simp)]
    · simp only [List.any_cons, Bool.or_eq_true] at h
      have hxs : xs.any (fun r => r.1 == k) = true := h.resolve_left hx
      rw [if_neg hx, List.find?_cons_of_neg (p := fun r : String × α => r.1 == k) _ hx]
      exact ih hxs

theorem find?_append_absent {α : Type} (m : List (String × α)) (k : String) (v : α)
    (h : m.any (fun r => r.1 == k) = false) :
    (m ++ [(k, v)]).find? (fun r => r.1 == k) = some (k, v) := by
  induction m with
  | nil => rw [List.nil_append, List.find?_cons_of_pos _ (by simp)]
  | cons x xs ih =>
    simp only [List.any_cons, Bool.or_eq_false_iff] at h
    rw [List.cons_append, List.find?_cons_of_neg _ (by simp [h.1]), ih h.2]

/-- A dict write is observed by a subsequent lookup of the same key: the
entry stored for `k` overwrites any prior entry. -/
theorem dictFind_dictSet {α : Type} (m : List (String × α)) (k : String) (v : α) :
    dictFind (dictSet m k v) k = some v := by
  unfold dictSet dictFind
  by_cases hany : m.any (fun r => r.1 == k) = true
  · rw [if_pos hany, find?_map_update m k v hany]
    rfl
  · rw [if_neg hany, find?_append_absent m k v (Bool.eq_false_iff.mpr hany)]
    rfl

/-- Upserting a second time updates the appended row in place. -/
theorem upsertClient_update (m : List (String × String)) (a c₁ c₂ : String)
    (h : m.any (fun r => r.1 == a) = false) :
    upsertClient (m ++ [(a, c₁)]) a c₂ = m ++ [(a, c₂)] := by
  have hany : ((m ++ [(a, c₁)]).any (fun r => r.1 == a)) = true := by
    simp [List.any_append]
  unfold upsertClient
  rw [if_pos hany, List.map_append, map_update_eq_self m a c₂ h]
  simp

/-! ## Path lemmas for `use_credentials` -/

/-- Found path: when the lookup returns a row whose stored principal id `v`
is non-empty and no call fails, `use_credentials` lists the directory
(never creating), upserts the client mapping, performs the five grants, and
caches a client for `v`. -/
theorem use_credentials_found (cfg : Config) (env : Env)
    (user_id client_id u₀ v : String) (tl : List (String × String)) (ctx : Ctx)
    (hf : noFail env) (hu : user_id ≠ "") (hc : client_id ≠ "") (hv : v ≠ "")
    (hlookup : ctx.st.sp_mapping.filter (fun r => r.1 == user_id) = (u₀, v) :: tl) :
    use_credentials cfg env user_id client_id ctx =
      (Except.ok ("Credentials set for user '" ++ user_id ++ "' (SP: " ++ v ++
        ") with client '" ++ client_id ++ "'."),
       { st := { sp_mapping := ctx.st.sp_mapping,
                 client_mapping := upsertClient ctx.st.client_mapping v client_id,
                 directory := ctx.st.directory,
                 sp_clients := dictSet ctx.st.sp_clients user_id
                   ⟨cfg.HOST, v,
                    env.secret (secretPath
                      (resolveNumericId ctx.st.directory ("sp-" ++ user_id) v))⟩ },
         trace := ctx.trace ++
           [Event.sqlExec (SqlStmt.selectPrincipal user_id),
            Event.spList ("displayName eq '" ++ ("sp-" ++ user_id) ++ "'"),
            Event.sqlExec (SqlStmt.mergeClientMapping v client_id),
            Event.endpointGet cfg.SERVING_ENDPOINT_NAME,
            Event.aclPatch ("/api/2.0/permissions/serving-endpoints/" ++ env.endpoint_id)
              v "CAN_QUERY",
            Event.aclPatch ("/api/2.0/permissions/genie/" ++ cfg.GENIE_SPACE_ID)
              v "CAN_RUN",
            Event.sqlExec (SqlStmt.grantUseCatalog v),
            Event.sqlExec (SqlStmt.grantUseSchema v),
            Event.sqlExec (SqlStmt.grantSelectTable v),
            Event.secretPost (secretPath
              (resolveNumericId ctx.st.directory ("sp-" ++ user_id) v))],
         calls := ctx.calls + 10 }) := by
  have hv' : (v == "") = false := by simp [hv]
  have hf' : ∀ n, env.fails n = false := hf
  simp [use_credentials, step, _execute_sql, runSql, service_principals_list,
    serving_endpoints_get, api_client_do_patch, api_client_do_secret,
    pyFalsyStrOpt, resolveNumericId, secretPath, hlookup, hv', hf', hu, hc,
    List.append_assoc]

/-- Create path: when the lookup returns no row and no call fails,
`use_credentials` creates a fresh principal `sp-<user_id>`, inserts the
user→principal row, upserts the client mapping, performs the five grants,
and caches a client for the fresh application id. -/
theorem use_credentials_creates (cfg : Config) (env : Env)
    (user_id client_id : String) (ctx : Ctx)
    (hf : noFail env) (hu : user_id ≠ "") (hc : client_id ≠ "")
    (hlookup : ctx.st.sp_mapping.filter (fun r => r.1 == user_id) = []) :
    use_credentials cfg env user_id client_id ctx =
      (Except.ok ("Credentials set for user '" ++ user_id ++ "' (SP: " ++
        (env.create ("sp-" ++ user_id)).1 ++ ") with client '" ++ client_id ++ "'."),
       { st := { sp_mapping := ctx.st.sp_mapping ++
                   [(user_id, (env.create ("sp-" ++ user_id)).1)],
                 client_mapping := upsertClient ctx.st.client_mapping
                   (env.create ("sp-" ++ user_id)).1 client_id,
                 directory := ctx.st.directory ++
                   [⟨"sp-" ++ user_id, (env.create ("sp-" ++ user_id)).1,
                     (env.create ("sp-" ++ user_id)).2, true⟩],
                 sp_clients := dictSet ctx.st.sp_clients user_id
                   ⟨cfg.HOST, (env.create ("sp-" ++ user_id)).1,
                    env.secret (secretPath (some (env.create ("sp-" ++ user_id)).2))⟩ },
         trace := ctx.trace ++
           [Event.sqlExec (SqlStmt.selectPrincipal user_id),
            Event.spCreate ("sp-" ++ user_id) true,
            Event.sqlExec (SqlStmt.insertPrincipal user_id (env.create ("sp-" ++ user_id)).1),
            Event.sqlExec (SqlStmt.mergeClientMapping (env.create ("sp-" ++ user_id)).1
              client_id),
            Event.endpointGet cfg.SERVING_ENDPOINT_NAME,
            Event.aclPatch ("/api/2.0/permissions/serving-endpoints/" ++ env.endpoint_id)
              (env.create ("sp-" ++ user_id)).1 "CAN_QUERY",
            Event.aclPatch ("/api/2.0/permissions/genie/" ++ cfg.GENIE_SPACE_ID)
              (env.create ("sp-" ++ user_id)).1 "CAN_RUN",
            Event.sqlExec (SqlStmt.grantUseCatalog (env.create ("sp-" ++ user_id)).1),
            Event.sqlExec (SqlStmt.grantUseSchema (env.create ("sp-" ++ user_id)).1),
            Event.sqlExec (SqlStmt.grantSelectTable (env.create ("sp-" ++ user_id)).1),
            Event.secretPost (secretPath (some (env.create ("sp-" ++ user_id)).2))],
         calls := ctx.calls + 11 }) := by
  have hf' : ∀ n, env.fails n = false := hf
  simp [use_credentials, step, _execute_sql, runSql, service_principals_list,
    service_principals_create, serving_endpoints_get, api_client_do_patch,
    api_client_do_secret, pyFalsyStrOpt, secretPath, hlookup, hf', hu, hc,
    List.append_assoc]

/-- Degenerate found path: a mapping row exists but stores the empty
string, which Python treats as falsy, so the workflow lists the directory
and then still creates a fresh principal and inserts a second row. -/
theorem use_credentials_found_empty (cfg : Config) (env : Env)
    (user_id client_id u₀ : String) (tl : List (String × String)) (ctx : Ctx)
    (hf : noFail env) (hu : user_id ≠ "") (hc : client_id ≠ "")
    (hlookup : ctx.st.sp_mapping.filter (fun r => r.1 == user_id) = (u₀, "") :: tl) :
    use_credentials cfg env user_id client_id ctx =
      (Except.ok ("Credentials set for user '" ++ user_id ++ "' (SP: " ++
        (env.create ("sp-" ++ user_id)).1 ++ ") with client '" ++ client_id ++ "'."),
       { st := { sp_mapping := ctx.st.sp_mapping ++
                   [(user_id, (env.create ("sp-" ++ user_id)).1)],
                 client_mapping := upsertClient ctx.st.client_mapping
                   (env.create ("sp-" ++ user_id)).1 client_id,
                 directory := ctx.st.directory ++
                   [⟨"sp-" ++ user_id, (env.create ("sp-" ++ user_id)).1,
                     (env.create ("sp-" ++ user_id)).2, true⟩],
                 sp_clients := dictSet ctx.st.sp_clients user_id
                   ⟨cfg.HOST, (env.create ("sp-" ++ user_id)).1,
                    env.secret (secretPath (some (env.create ("sp-" ++ user_id)).2))⟩ },
         trace := ctx.trace ++
           [Event.sqlExec (SqlStmt.selectPrincipal user_id),
            Event.spList ("displayName eq '" ++ ("sp-" ++ user_id) ++ "'"),
            Event.spCreate ("sp-" ++ user_id) true,
            Event.sqlExec (SqlStmt.insertPrincipal user_id (env.create ("sp-" ++ user_id)).1),
            Event.sqlExec (SqlStmt.mergeClientMapping (env.create ("sp-" ++ user_id)).1
              client_id),
            Event.endpointGet cfg.SERVING_ENDPOINT_NAME,
            Event.aclPatch ("/api/2.0/permissions/serving-endpoints/" ++ env.endpoint_id)
              (env.create ("sp-" ++ user_id)).1 "CAN_QUERY",
            Event.aclPatch ("/api/2.0/permissions/genie/" ++ cfg.GENIE_SPACE_ID)
              (env.create ("sp-" ++ user_id)).1 "CAN_RUN",
            Event.sqlExec (SqlStmt.grantUseCatalog (env.create ("sp-" ++ user_id)).1),
            Event.sqlExec (SqlStmt.grantUseSchema (env.create ("sp-" ++ user_id)).1),
            Event.sqlExec (SqlStmt.grantSelectTable (env.create ("sp-" ++ user_id)).1),
            Event.secretPost (secretPath (some (env.create ("sp-" ++ user_id)).2))],
         calls := ctx.calls + 12 }) := by
  have hf' : ∀ n, env.fails n = false := hf
  simp [use_credentials, step, _execute_sql, runSql, service_principals_list,
    service_principals_create, serving_endpoints_get, api_client_do_patch,
    api_client_do_secret, pyFalsyStrOpt, secretPath, hlookup, hf', hu, hc,
    List.append_assoc]

/-! ## Claims -/

/-- C2: with an empty `user_id` or `client_id`, `use_credentials` returns
the human-readable validation status immediately and leaves the context —
state, cache, trace, and call count — exactly as it was: zero calls to the
SQL, identity, or permission services. -/
theorem claim_C2 (cfg : Config) (env : Env) (user_id client_id : String) (ctx : Ctx)
    (h : user_id = "" ∨ client_id = "") :
    use_credentials cfg env user_id client_id ctx =
      (Except.ok "Please provide both User ID and Client ID.", ctx) := by
  unfold use_credentials
  rw [if_pos h]

theorem claim_C2_witness :
    use_credentials sampleCfg sampleEnv "" "c" emptyCtx =
      (Except.ok "Please provide both User ID and Client ID.", emptyCtx) :=
  claim_C2 sampleCfg sampleEnv "" "c" emptyCtx (Or.inl rfl)

/-- C7: response-text extraction yields `"A"` for the nested message shape,
`"B"` for the direct-text shape, the diagnostic string listing the (empty)
top-level keys for `{}`, and concatenates multiple fragments in encounter
order separated by blank lines. -/
theorem claim_C7 :
    _extract_response_text
      [("output", Json.arr [Json.obj
        [("type", Json.str "message"),
         ("content", Json.arr [Json.obj
           [("type", Json.str "output_text"), ("text", Json.str "A")]])]])]
      = Except.ok "A" ∧
    _extract_response_text [("output", Json.arr [Json.obj [("text", Json.str "B")]])]
      = Except.ok "B" ∧
    _extract_response_text [] =
      Except.ok "No response parsed. Raw response keys: []" ∧
    _extract_response_text
      [("output", Json.arr
        [Json.obj [("type", Json.str "message"), ("content", Json.arr
          [Json.obj [("type", Json.str "output_text"), ("text", Json.str "A")],
           Json.obj [("type", Json.str "output_text"), ("text", Json.str "B")]])],
         Json.obj [("text", Json.str "C")]])]
      = Except.ok "A\n\nB\n\nC" :=
  ⟨rfl, rfl, rfl, rfl⟩

/-- C1: binding the same user twice with the same client, starting from a
state with no mapping row, no `sp-<u>` principal, and no client-mapping row
for the fresh application id, leaves exactly one principal for `u`, exactly
one user→principal row, and the client mapping holding `c` exactly once;
the second call lists the directory and never calls create; both calls
succeed with the same status. -/
theorem claim_C1 (cfg : Config) (env : Env) (u c : String) (ctx : Ctx)
    (hf : noFail env) (hu : u ≠ "") (hc : c ≠ "")
    (hmap : ctx.st.sp_mapping.filter (fun r => r.1 == u) = [])
    (hdir : ctx.st.directory.filter (fun sp => sp.display_name == ("sp-" ++ u)) = [])
    (hcli : ctx.st.client_mapping.any
      (fun r => r.1 == (env.create ("sp-" ++ u)).1) = false)
    (ha : (env.create ("sp-" ++ u)).1 ≠ "") :
    (use_credentials cfg env u c
        (use_credentials cfg env u c ctx).2).2.st.directory.filter
      (fun sp => sp.display_name == ("sp-" ++ u)) =
      [⟨"sp-" ++ u, (env.create ("sp-" ++ u)).1, (env.create ("sp-" ++ u)).2, true⟩] ∧
    (use_credentials cfg env u c
        (use_credentials cfg env u c ctx).2).2.st.sp_mapping.filter
      (fun r => r.1 == u) = [(u, (env.create ("sp-" ++ u)).1)] ∧
    (use_credentials cfg env u c
        (use_credentials cfg env u c ctx).2).2.st.client_mapping.filter
      (fun r => r.1 == (env.create ("sp-" ++ u)).1) =
      [((env.create ("sp-" ++ u)).1, c)] ∧
    (newEvents (use_credentials cfg env u c ctx).2
        (use_credentials cfg env u c (use_credentials cfg env u c ctx).2)).all
      (fun e => !e.isCreate) = true ∧
    Event.spList ("displayName eq '" ++ ("sp-" ++ u) ++ "'") ∈
      newEvents (use_credentials cfg env u c ctx).2
        (use_credentials cfg env u c (use_credentials cfg env u c ctx).2) ∧
    (use_credentials cfg env u c ctx).1 =
      Except.ok ("Credentials set for user '" ++ u ++ "' (SP: " ++
        (env.create ("sp-" ++ u)).1 ++ ") with client '" ++ c ++ "'.") ∧
    (use_credentials cfg env u c (use_credentials cfg env u c ctx).2).1 =
      Except.ok ("Credentials set for user '" ++ u ++ "' (SP: " ++
        (env.create ("sp-" ++ u)).1 ++ ") with client '" ++ c ++ "'.") := by
  have h1 := use_credentials_creates cfg env u c ctx hf hu hc hmap
  have hsp1 : (use_credentials cfg env u c ctx).2.st.sp_mapping =
      ctx.st.sp_mapping ++ [(u, (env.create ("sp-" ++ u)).1)] := by rw [h1]
  have hdir1 : (use_credentials cfg env u c ctx).2.st.directory =
      ctx.st.directory ++
        [⟨"sp-" ++ u, (env.create ("sp-" ++ u)).1, (env.create ("sp-" ++ u)).2, true⟩] := by
    rw [h1]
  have hcli1 : (use_credentials cfg env u c ctx).2.st.client_mapping =
      upsertClient ctx.st.client_mapping (env.create ("sp-" ++ u)).1 c := by rw [h1]
  have hlookup2 : (use_credentials cfg env u c ctx).2.st.sp_mapping.filter
      (fun r => r.1 == u) = (u, (env.create ("sp-" ++ u)).1) :: [] := by
    rw [hsp1, List.filter_append, hmap]; simp
  have h2 := use_credentials_found cfg env u c u (env.create ("sp-" ++ u)).1 []
    (use_credentials cfg env u c ctx).2 hf hu hc ha hlookup2
  have hup : upsertClient ctx.st.client_mapping (env.create ("sp-" ++ u)).1 c =
      ctx.st.client_mapping ++ [((env.create ("sp-" ++ u)).1, c)] :=
    upsertClient_absent _ _ _ hcli
  refine ⟨?_, ?_, ?_, ?_, ?_, ?_, ?_⟩
  · rw [h2]
    show ((use_credentials cfg env u c ctx).2.st.directory.filter _) = _
    rw [hdir1, List.filter_append, hdir]
    simp
  · rw [h2]
    show ((use_credentials cfg env u c ctx).2.st.sp_mapping.filter _) = _
    rw [hlookup2]
  · rw [h2]
    show (upsertClient ((use_credentials cfg env u c ctx).2.st.client_mapping) _ _).filter _ = _
    rw [hcli1, hup, upsertClient_update _ _ _ _ hcli, List.filter_append,
      filter_eq_nil_of_any_eq_false _ _ hcli]
    simp
  · simp only [newEvents, h2, List.drop_left]
    simp [Event.isCreate]
  · simp only [newEvents, h2, List.drop_left]
    simp
  · rw [h1]
  · rw [h2]

theorem claim_C1_witness :
    (use_credentials sampleCfg sampleEnv "u" "c"
        (use_credentials sampleCfg sampleEnv "u" "c" emptyCtx).2).2.st.directory.filter
      (fun sp => sp.display_name == ("sp-" ++ "u")) =
      [⟨"sp-" ++ "u", (sampleEnv.create ("sp-" ++ "u")).1,
        (sampleEnv.create ("sp-" ++ "u")).2, true⟩] ∧
    (use_credentials sampleCfg sampleEnv "u" "c"
        (use_credentials sampleCfg sampleEnv "u" "c" emptyCtx).2).2.st.sp_mapping.filter
      (fun r => r.1 == "u") = [("u", (sampleEnv.create ("sp-" ++ "u")).1)] ∧
    (use_credentials sampleCfg sampleEnv "u" "c"
        (use_credentials sampleCfg sampleEnv "u" "c" emptyCtx).2).2.st.client_mapping.filter
      (fun r => r.1 == (sampleEnv.create ("sp-" ++ "u")).1) =
      [((sampleEnv.create ("sp-" ++ "u")).1, "c")] ∧
    (newEvents (use_credentials sampleCfg sampleEnv "u" "c" emptyCtx).2
        (use_credentials sampleCfg sampleEnv "u" "c"
          (use_credentials sampleCfg sampleEnv "u" "c" emptyCtx).2)).all
      (fun e => !e.isCreate) = true ∧
    Event.spList ("displayName eq '" ++ ("sp-" ++ "u") ++ "'") ∈
      newEvents (use_credentials sampleCfg sampleEnv "u" "c" emptyCtx).2
        (use_credentials sampleCfg sampleEnv "u" "c"
          (use_credentials sampleCfg sampleEnv "u" "c" emptyCtx).2) ∧
    (use_credentials sampleCfg sampleEnv "u" "c" emptyCtx).1 =
      Except.ok ("Credentials set for user '" ++ "u" ++ "' (SP: " ++
        (sampleEnv.create ("sp-" ++ "u")).1 ++ ") with client '" ++ "c" ++ "'.") ∧
    (use_credentials sampleCfg sampleEnv "u" "c"
        (use_credentials sampleCfg sampleEnv "u" "c" emptyCtx).2).1 =
      Except.ok ("Credentials set for user '" ++ "u" ++ "' (SP: " ++
        (sampleEnv.create ("sp-" ++ "u")).1 ++ ") with client '" ++ "c" ++ "'.") :=
  claim_C1 sampleCfg sampleEnv "u" "c" emptyCtx (fun _ => rfl) (by decide) (by decide)
    rfl rfl rfl (by decide)

/-- C3: rebinding a known user to a different client leaves the
user→principal table and the directory (hence the principal) untouched,
performs no create, and updates the principal→client mapping to the new
client — exactly one row, the old value not retained. -/
theorem claim_C3 (cfg : Config) (env : Env) (u c₁ c₂ : String) (ctx : Ctx)
    (hf : noFail env) (hu : u ≠ "") (hc₁ : c₁ ≠ "") (hc₂ : c₂ ≠ "")
    (hmap : ctx.st.sp_mapping.filter (fun r => r.1 == u) = [])
    (hcli : ctx.st.client_mapping.any
      (fun r => r.1 == (env.create ("sp-" ++ u)).1) = false)
    (ha : (env.create ("sp-" ++ u)).1 ≠ "") :
    (use_credentials cfg env u c₂ (use_credentials cfg env u c₁ ctx).2).2.st.sp_mapping =
      (use_credentials cfg env u c₁ ctx).2.st.sp_mapping ∧
    (use_credentials cfg env u c₂ (use_credentials cfg env u c₁ ctx).2).2.st.directory =
      (use_credentials cfg env u c₁ ctx).2.st.directory ∧
    (newEvents (use_credentials cfg env u c₁ ctx).2
        (use_credentials cfg env u c₂ (use_credentials cfg env u c₁ ctx).2)).all
      (fun e => !e.isCreate) = true ∧
    (use_credentials cfg env u c₂
        (use_credentials cfg env u c₁ ctx).2).2.st.client_mapping.filter
      (fun r => r.1 == (env.create ("sp-" ++ u)).1) =
      [((env.create ("sp-" ++ u)).1, c₂)] := by
  have h1 := use_credentials_creates cfg env u c₁ ctx hf hu hc₁ hmap
  have hsp1 : (use_credentials cfg env u c₁ ctx).2.st.sp_mapping =
      ctx.st.sp_mapping ++ [(u, (env.create ("sp-" ++ u)).1)] := by rw [h1]
  have hcli1 : (use_credentials cfg env u c₁ ctx).2.st.client_mapping =
      upsertClient ctx.st.client_mapping (env.create ("sp-" ++ u)).1 c₁ := by rw [h1]
  have hlookup2 : (use_credentials cfg env u c₁ ctx).2.st.sp_mapping.filter
      (fun r => r.1 == u) = (u, (env.create ("sp-" ++ u)).1) :: [] := by
    rw [hsp1, List.filter_append, hmap]; simp
  have h2 := use_credentials_found cfg env u c₂ u (env.create ("sp-" ++ u)).1 []
    (use_credentials cfg env u c₁ ctx).2 hf hu hc₂ ha hlookup2
  refine ⟨?_, ?_, ?_, ?_⟩
  · rw [h2]
  · rw [h2]
  · simp only [newEvents, h2, List.drop_left]
    simp [Event.isCreate]
  · rw [h2]
    show (upsertClient
      ((use_credentials cfg env u c₁ ctx).2.st.client_mapping) _ _).filter _ = _
    rw [hcli1, upsertClient_absent _ _ _ hcli, upsertClient_update _ _ _ _ hcli,
      List.filter_append, filter_eq_nil_of_any_eq_false _ _ hcli]
    simp

theorem claim_C3_witness :
    (use_credentials sampleCfg sampleEnv "u" "c2"
        (use_credentials sampleCfg sampleEnv "u" "c1" emptyCtx).2).2.st.sp_mapping =
      (use_credentials sampleCfg sampleEnv "u" "c1" emptyCtx).2.st.sp_mapping ∧
    (use_credentials sampleCfg sampleEnv "u" "c2"
        (use_credentials sampleCfg sampleEnv "u" "c1" emptyCtx).2).2.st.directory =
      (use_credentials sampleCfg sampleEnv "u" "c1" emptyCtx).2.st.directory ∧
    (newEvents (use_credentials sampleCfg sampleEnv "u" "c1" emptyCtx).2
        (use_credentials sampleCfg sampleEnv "u" "c2"
          (use_credentials sampleCfg sampleEnv "u" "c1" emptyCtx).2)).all
      (fun e => !e.isCreate) = true ∧
    (use_credentials sampleCfg sampleEnv "u" "c2"
        (use_credentials sampleCfg sampleEnv "u" "c1" emptyCtx).2).2.st.client_mapping.filter
      (fun r => r.1 == (sampleEnv.create ("sp-" ++ "u")).1) =
      [((sampleEnv.create ("sp-" ++ "u")).1, "c2")] :=
  claim_C3 sampleCfg sampleEnv "u" "c1" "c2" emptyCtx (fun _ => rfl) (by decide)
    (by decide) (by decide) rfl rfl (by decide)

/-- C4: every successful bind issues, in this exact order and with no other
grant calls interleaved: one ACL patch on the serving endpoint with
permission level CAN_QUERY, one ACL patch on the Genie space with CAN_RUN,
then the three sequential catalog/schema/table GRANT statements. -/
theorem claim_C4 (cfg : Config) (env : Env) (u c : String) (ctx : Ctx)
    (hf : noFail env) (hu : u ≠ "") (hc : c ≠ "") :
    ∃ a : String,
      (use_credentials cfg env u c ctx).1 =
        Except.ok ("Credentials set for user '" ++ u ++ "' (SP: " ++ a ++
          ") with client '" ++ c ++ "'.") ∧
      (newEvents ctx (use_credentials cfg env u c ctx)).filter Event.isGrant =
        [Event.aclPatch ("/api/2.0/permissions/serving-endpoints/" ++ env.endpoint_id)
           a "CAN_QUERY",
         Event.aclPatch ("/api/2.0/permissions/genie/" ++ cfg.GENIE_SPACE_ID)
           a "CAN_RUN",
         Event.sqlExec (SqlStmt.grantUseCatalog a),
         Event.sqlExec (SqlStmt.grantUseSchema a),
         Event.sqlExec (SqlStmt.grantSelectTable a)] := by
  rcases hsplit : ctx.st.sp_mapping.filter (fun r => r.1 == u) with _ | ⟨⟨u₀, v⟩, tl⟩
  · refine ⟨(env.create ("sp-" ++ u)).1, ?_, ?_⟩
    · rw [use_credentials_creates cfg env u c ctx hf hu hc hsplit]
    · simp only [newEvents, use_credentials_creates cfg env u c ctx hf hu hc hsplit,
        List.drop_left]
      simp [Event.isGrant]
  · by_cases hv : v = ""
    · subst hv
      refine ⟨(env.create ("sp-" ++ u)).1, ?_, ?_⟩
      · rw [use_credentials_found_empty cfg env u c u₀ tl ctx hf hu hc hsplit]
      · simp only [newEvents, use_credentials_found_empty cfg env u c u₀ tl ctx hf hu hc
          hsplit, List.drop_left]
        simp [Event.isGrant]
    · refine ⟨v, ?_, ?_⟩
      · rw [use_credentials_found cfg env u c u₀ v tl ctx hf hu hc hv hsplit]
      · simp only [newEvents, use_credentials_found cfg env u c u₀ v tl ctx hf hu hc hv
          hsplit, List.drop_left]
        simp [Event.isGrant]

theorem claim_C4_witness :
    ∃ a : String,
      (use_credentials sampleCfg sampleEnv "u" "c" emptyCtx).1 =
        Except.ok ("Credentials set for user '" ++ "u" ++ "' (SP: " ++ a ++
          ") with client '" ++ "c" ++ "'.") ∧
      (newEvents emptyCtx (use_credentials sampleCfg sampleEnv "u" "c" emptyCtx)).filter
          Event.isGrant =
        [Event.aclPatch ("/api/2.0/permissions/serving-endpoints/" ++
           sampleEnv.endpoint_id) a "CAN_QUERY",
         Event.aclPatch ("/api/2.0/permissions/genie/" ++ sampleCfg.GENIE_SPACE_ID)
           a "CAN_RUN",
         Event.sqlExec (SqlStmt.grantUseCatalog a),
         Event.sqlExec (SqlStmt.grantUseSchema a),
         Event.sqlExec (SqlStmt.grantSelectTable a)] :=
  claim_C4 sampleCfg sampleEnv "u" "c" emptyCtx (fun _ => rfl) (by decide) (by decide)

/-- C5: when the warehouse reports a failed status for the user→principal
`INSERT` (the third call on the create path), `use_credentials` aborts with
the execution error: the trace ends at the insert — no ACL patch, no GRANT
statement, no secret minting — the failed insert leaves the mapping table
unchanged, and the credential cache is untouched. -/
theorem claim_C5 (cfg : Config) (env : Env) (u c : String) (ctx : Ctx)
    (hu : u ≠ "") (hc : c ≠ "")
    (hmap : ctx.st.sp_mapping.filter (fun r => r.1 == u) = [])
    (hf0 : env.fails ctx.calls = false)
    (hf1 : env.fails (ctx.calls + 1) = false)
    (hf2 : env.fails (ctx.calls + 2) = true) :
    use_credentials cfg env u c ctx =
      (Except.error (PyErr.runtimeError
        ("SQL execution failed: " ++ env.failDetail (ctx.calls + 2))),
       { st := { sp_mapping := ctx.st.sp_mapping,
                 client_mapping := ctx.st.client_mapping,
                 directory := ctx.st.directory ++
                   [⟨"sp-" ++ u, (env.create ("sp-" ++ u)).1,
                     (env.create ("sp-" ++ u)).2, true⟩],
                 sp_clients := ctx.st.sp_clients },
         trace := ctx.trace ++
           [Event.sqlExec (SqlStmt.selectPrincipal u),
            Event.spCreate ("sp-" ++ u) true,
            Event.sqlExec (SqlStmt.insertPrincipal u (env.create ("sp-" ++ u)).1)],
         calls := ctx.calls + 3 }) ∧
    (newEvents ctx (use_credentials cfg env u c ctx)).filter Event.isGrant = [] ∧
    (newEvents ctx (use_credentials cfg env u c ctx)).all
      (fun e => !e.isSecretPost) = true ∧
    (use_credentials cfg env u c ctx).2.st.sp_clients = ctx.st.sp_clients ∧
    (use_credentials cfg env u c ctx).2.st.sp_mapping = ctx.st.sp_mapping := by
  have hmain : use_credentials cfg env u c ctx =
      (Except.error (PyErr.runtimeError
        ("SQL execution failed: " ++ env.failDetail (ctx.calls + 2))),
       { st := { sp_mapping := ctx.st.sp_mapping,
                 client_mapping := ctx.st.client_mapping,
                 directory := ctx.st.directory ++
                   [⟨"sp-" ++ u, (env.create ("sp-" ++ u)).1,
                     (env.create ("sp-" ++ u)).2, true⟩],
                 sp_clients := ctx.st.sp_clients },
         trace := ctx.trace ++
           [Event.sqlExec (SqlStmt.selectPrincipal u),
            Event.spCreate ("sp-" ++ u) true,
            Event.sqlExec (SqlStmt.insertPrincipal u (env.create ("sp-" ++ u)).1)],
         calls := ctx.calls + 3 }) := by
    simp [use_credentials, step, _execute_sql, runSql, service_principals_create,
      pyFalsyStrOpt, hmap, hf0, hf1, hf2, hu, hc, List.append_assoc]
  refine ⟨hmain, ?_, ?_, ?_, ?_⟩
  · simp only [newEvents, hmain, List.drop_left]
    simp [Event.isGrant]
  · simp only [newEvents, hmain, List.drop_left]
    simp [Event.isSecretPost]
  · rw [hmain]
  · rw [hmain]

theorem claim_C5_witness :
    use_credentials sampleCfg insertFailEnv "u" "c" emptyCtx =
      (Except.error (PyErr.runtimeError
        ("SQL execution failed: " ++ insertFailEnv.failDetail (emptyCtx.calls + 2))),
       { st := { sp_mapping := emptyCtx.st.sp_mapping,
                 client_mapping := emptyCtx.st.client_mapping,
                 directory := emptyCtx.st.directory ++
                   [⟨"sp-" ++ "u", (insertFailEnv.create ("sp-" ++ "u")).1,
                     (insertFailEnv.create ("sp-" ++ "u")).2, true⟩],
                 sp_clients := emptyCtx.st.sp_clients },
         trace := emptyCtx.trace ++
           [Event.sqlExec (SqlStmt.selectPrincipal "u"),
            Event.spCreate ("sp-" ++ "u") true,
            Event.sqlExec (SqlStmt.insertPrincipal "u"
              (insertFailEnv.create ("sp-" ++ "u")).1)],
         calls := emptyCtx.calls + 3 }) ∧
    (newEvents emptyCtx (use_credentials sampleCfg insertFailEnv "u" "c" emptyCtx)).filter
      Event.isGrant = [] ∧
    (newEvents emptyCtx (use_credentials sampleCfg insertFailEnv "u" "c" emptyCtx)).all
      (fun e => !e.isSecretPost) = true ∧
    (use_credentials sampleCfg insertFailEnv "u" "c" emptyCtx).2.st.sp_clients =
      emptyCtx.st.sp_clients ∧
    (use_credentials sampleCfg insertFailEnv "u" "c" emptyCtx).2.st.sp_mapping =
      emptyCtx.st.sp_mapping :=
  claim_C5 sampleCfg insertFailEnv "u" "c" emptyCtx (by decide) (by decide) rfl
    rfl rfl rfl

/-- C9: when a mapping row stores a non-empty principal id that the
directory listing (filtered by display name `sp-<u>`) cannot resolve,
`use_credentials` neither creates a principal nor fails at that step: it
completes, and the credential-secret request path embeds `None` as the
numeric id. -/
theorem claim_C9 (cfg : Config) (env : Env) (u c u₀ v : String)
    (tl : List (String × String)) (ctx : Ctx)
    (hf : noFail env) (hu : u ≠ "") (hc : c ≠ "") (hv : v ≠ "")
    (hlookup : ctx.st.sp_mapping.filter (fun r => r.1 == u) = (u₀, v) :: tl)
    (hdir : resolveNumericId ctx.st.directory ("sp-" ++ u) v = none) :
    (use_credentials cfg env u c ctx).1 =
      Except.ok ("Credentials set for user '" ++ u ++ "' (SP: " ++ v ++
        ") with client '" ++ c ++ "'.") ∧
    (newEvents ctx (use_credentials cfg env u c ctx)).all
      (fun e => !e.isCreate) = true ∧
    Event.secretPost "/api/2.0/accounts/servicePrincipals/None/credentials/secrets" ∈
      newEvents ctx (use_credentials cfg env u c ctx) := by
  have h := use_credentials_found cfg env u c u₀ v tl ctx hf hu hc hv hlookup
  refine ⟨?_, ?_, ?_⟩
  · rw [h]
  · simp only [newEvents, h, List.drop_left]
    simp [Event.isCreate]
  · simp only [newEvents, h, List.drop_left, hdir]
    simp [secretPath, pyStrOpt]

theorem claim_C9_witness :
    (use_credentials sampleCfg sampleEnv "u" "c" staleMappingCtx).1 =
      Except.ok ("Credentials set for user '" ++ "u" ++ "' (SP: " ++ "app-x" ++
        ") with client '" ++ "c" ++ "'.") ∧
    (newEvents staleMappingCtx
        (use_credentials sampleCfg sampleEnv "u" "c" staleMappingCtx)).all
      (fun e => !e.isCreate) = true ∧
    Event.secretPost "/api/2.0/accounts/servicePrincipals/None/credentials/secrets" ∈
      newEvents staleMappingCtx
        (use_credentials sampleCfg sampleEnv "u" "c" staleMappingCtx) :=
  claim_C9 sampleCfg sampleEnv "u" "c" "u" "app-x" [] staleMappingCtx (fun _ => rfl)
    (by decide) (by decide) (by decide) rfl rfl

/-- A chat turn issues exactly one invocation to the serving endpoint's
invocation path, through the client found in the credential cache for
`user_id` (the default client — `none` — when no entry is cached), with the
history-plus-message payload. -/
theorem query_endpoint_invoke (cfg : Config) (env : Env) (msg : String)
    (history : List ChatMsg) (u c : String) (ctx : Ctx) :
    newEvents ctx (query_endpoint cfg env msg history u c ctx) =
      [Event.invoke ("/serving-endpoints/" ++ cfg.SERVING_ENDPOINT_NAME ++ "/invocations")
        (dictFind ctx.st.sp_clients u)
        ((history.map (fun m => ChatMsg.mk m.role m.content)) ++
          [ChatMsg.mk "user" msg])] := by
  unfold query_endpoint newEvents
  cases env.invokeResp <;> simp [List.drop_left]

/-- C6: before any bind for `u` the router invokes through the default
(unauthenticated) client; after a successful bind it invokes through the
principal-bound client cached for `u`; and the cache write of bind
overwrites any prior entry for `u`. -/
theorem claim_C6 (cfg : Config) (env : Env) (u c msg : String)
    (history : List ChatMsg) (ctx : Ctx)
    (hf : noFail env) (hu : u ≠ "") (hc : c ≠ "")
    (hnone : dictFind ctx.st.sp_clients u = none) :
    newEvents ctx (query_endpoint cfg env msg history u c ctx) =
      [Event.invoke ("/serving-endpoints/" ++ cfg.SERVING_ENDPOINT_NAME ++ "/invocations")
        none
        ((history.map (fun m => ChatMsg.mk m.role m.content)) ++
          [ChatMsg.mk "user" msg])] ∧
    (∃ cc : WorkspaceClient,
      dictFind (use_credentials cfg env u c ctx).2.st.sp_clients u = some cc ∧
      newEvents (use_credentials cfg env u c ctx).2
        (query_endpoint cfg env msg history u c (use_credentials cfg env u c ctx).2) =
        [Event.invoke
          ("/serving-endpoints/" ++ cfg.SERVING_ENDPOINT_NAME ++ "/invocations")
          (some cc)
          ((history.map (fun m => ChatMsg.mk m.role m.content)) ++
            [ChatMsg.mk "user" msg])]) ∧
    (∀ (m : List (String × WorkspaceClient)) (w : WorkspaceClient),
      dictFind (dictSet m u w) u = some w) := by
  have hcache : ∃ cc : WorkspaceClient,
      (use_credentials cfg env u c ctx).2.st.sp_clients =
        dictSet ctx.st.sp_clients u cc := by
    rcases hsplit : ctx.st.sp_mapping.filter (fun r => r.1 == u) with _ | ⟨⟨u₀, v⟩, tl⟩
    · exact ⟨_, by rw [use_credentials_creates cfg env u c ctx hf hu hc hsplit]⟩
    · by_cases hv : v = ""
      · subst hv
        exact ⟨_, by
          rw [use_credentials_found_empty cfg env u c u₀ tl ctx hf hu hc hsplit]⟩
      · exact ⟨_, by
          rw [use_credentials_found cfg env u c u₀ v tl ctx hf hu hc hv hsplit]⟩
  rcases hcache with ⟨cc, hcc⟩
  refine ⟨?_, ⟨cc, ?_, ?_⟩, fun m w => dictFind_dictSet m u w⟩
  · rw [query_endpoint_invoke, hnone]
  · rw [hcc]
    exact dictFind_dictSet _ _ _
  · rw [query_endpoint_invoke, hcc, dictFind_dictSet]

theorem claim_C6_witness :
    newEvents emptyCtx (query_endpoint sampleCfg sampleEnv "hello" [] "u" "c" emptyCtx) =
      [Event.invoke
        ("/serving-endpoints/" ++ sampleCfg.SERVING_ENDPOINT_NAME ++ "/invocations")
        none
        (([] : List ChatMsg).map (fun m => ChatMsg.mk m.role m.content) ++
          [ChatMsg.mk "user" "hello"])] ∧
    (∃ cc : WorkspaceClient,
      dictFind (use_credentials sampleCfg sampleEnv "u" "c" emptyCtx).2.st.sp_clients
        "u" = some cc ∧
      newEvents (use_credentials sampleCfg sampleEnv "u" "c" emptyCtx).2
        (query_endpoint sampleCfg sampleEnv "hello" [] "u" "c"
          (use_credentials sampleCfg sampleEnv "u" "c" emptyCtx).2) =
        [Event.invoke
          ("/serving-endpoints/" ++ sampleCfg.SERVING_ENDPOINT_NAME ++ "/invocations")
          (some cc)
          (([] : List ChatMsg).map (fun m => ChatMsg.mk m.role m.content) ++
            [ChatMsg.mk "user" "hello"])]) ∧
    (∀ (m : List (String × WorkspaceClient)) (w : WorkspaceClient),
      dictFind (dictSet m "u" w) "u" = some w) :=
  claim_C6 sampleCfg sampleEnv "u" "c" "hello" [] emptyCtx (fun _ => rfl)
    (by decide) (by decide) rfl

/-! ## Cache preservation: every operation before the final write leaves
`_sp_clients` alone -/

theorem runSql_sp_clients (stmt : SqlStmt) (st : WState) :
    (runSql stmt st).2.sp_clients = st.sp_clients := by
  cases stmt <;> rfl

theorem sp_clients_execute_sql (env : Env) (stmt : SqlStmt) (ctx : Ctx) :
    ((_execute_sql env stmt ctx).2).st.sp_clients = ctx.st.sp_clients := by
  have hrun := runSql_sp_clients stmt ctx.st
  rcases hr : runSql stmt ctx.st with ⟨rows, st'⟩
  rw [hr] at hrun
  have hrun' : st'.sp_clients = ctx.st.sp_clients := hrun
  unfold _execute_sql
  by_cases h : env.fails ctx.calls = true <;> simp [h, hr, hrun']

theorem sp_clients_list (env : Env) (dn : String) (ctx : Ctx) :
    ((service_principals_list env dn ctx).2).st.sp_clients = ctx.st.sp_clients := by
  unfold service_principals_list
  by_cases h : env.fails ctx.calls = true <;> simp [h]

theorem sp_clients_create (env : Env) (dn : String) (a : Bool) (ctx : Ctx) :
    ((service_principals_create env dn a ctx).2).st.sp_clients = ctx.st.sp_clients := by
  unfold service_principals_create
  by_cases h : env.fails ctx.calls = true <;> simp [h]

theorem sp_clients_endpoints_get (env : Env) (name : String) (ctx : Ctx) :
    ((serving_endpoints_get env name ctx).2).st.sp_clients = ctx.st.sp_clients := by
  unfold serving_endpoints_get
  by_cases h : env.fails ctx.calls = true <;> simp [h]

theorem sp_clients_patch (env : Env) (p a l : String) (ctx : Ctx) :
    ((api_client_do_patch env p a l ctx).2).st.sp_clients = ctx.st.sp_clients := by
  unfold api_client_do_patch
  by_cases h : env.fails ctx.calls = true <;> simp [h]

theorem sp_clients_secret (env : Env) (n : Option String) (ctx : Ctx) :
    ((api_client_do_secret env n ctx).2).st.sp_clients = ctx.st.sp_clients := by
  unfold api_client_do_secret
  by_cases h : env.fails ctx.calls = true <;> simp [h]

/-- An aborted `step` keeps the cache of the point of failure; a successful
one hands control to the continuation. -/
theorem step_error_preserves {α β : Type} (s0 : List (String × WorkspaceClient))
    (e : PyErr) (r : Except PyErr α × Ctx) (f : α → Ctx → Except PyErr β × Ctx)
    (hr : r.2.st.sp_clients = s0)
    (hk : ∀ a ctx', ctx'.st.sp_clients = s0 → (f a ctx').1 = Except.error e →
      (f a ctx').2.st.sp_clients = s0) :
    (step r f).1 = Except.error e → (step r f).2.st.sp_clients = s0 := by
  rcases r with ⟨r, ctx'⟩
  cases r with
  | error e' => intro _; exact hr
  | ok a => exact hk a ctx' hr

/-- The second component of a `step` whose continuation leaves the cache
alone also leaves the cache alone. -/
theorem step_snd_preserves {α β : Type} (s0 : List (String × WorkspaceClient))
    (r : Except PyErr α × Ctx) (f : α → Ctx → Except PyErr β × Ctx)
    (hr : r.2.st.sp_clients = s0)
    (hk : ∀ a ctx', ctx'.st.sp_clients = s0 → (f a ctx').2.st.sp_clients = s0) :
    (step r f).2.st.sp_clients = s0 := by
  rcases r with ⟨r, ctx'⟩
  cases r with
  | error e' => exact hr
  | ok a => exact hk a ctx' hr

/-- C10: the credential-cache write is the final step of `use_credentials`:
whenever the call surfaces an error — whichever step failed — the cache is
exactly what it was before the call. -/
theorem claim_C10 (cfg : Config) (env : Env) (u c : String) (ctx : Ctx) (e : PyErr)
    (h : (use_credentials cfg env u c ctx).1 = Except.error e) :
    (use_credentials cfg env u c ctx).2.st.sp_clients = ctx.st.sp_clients := by
  revert h
  by_cases hval : u = "" ∨ c = ""
  · unfold use_credentials
    rw [if_pos hval]
    intro h
    cases h
  · unfold use_credentials
    rw [if_neg hval]
    apply step_error_preserves _ e _ _ (sp_clients_execute_sql env _ ctx)
    intro lookup ctx1 h1
    apply step_error_preserves
    · -- the lookup-resolution expression preserves the cache
      rcases lookup with _ | ⟨row, tll⟩
      · exact h1
      · rcases row with _ | ⟨v, rtl⟩
        · exact h1
        · exact step_snd_preserves _ _ _
            ((sp_clients_list env _ ctx1).trans h1) (fun _ _ hp => hp)
    · intro ids ctx2 h2
      apply step_error_preserves
      · -- the create-if-absent expression preserves the cache
        by_cases hfal : pyFalsyStrOpt ids.1 = true
        · rw [if_pos hfal]
          apply step_snd_preserves _ _ _ ((sp_clients_create env _ _ ctx2).trans h2)
          intro sp ctx3 h3
          exact step_snd_preserves _ _ _
            ((sp_clients_execute_sql env _ ctx3).trans h3) (fun _ _ hp => hp)
        · rw [if_neg hfal]
          exact h2
      · intro resolved ctx3 h3
        rcases resolved with ⟨a, n⟩
        apply step_error_preserves _ e _ _ ((sp_clients_execute_sql env _ ctx3).trans h3)
        intro _ ctx4 h4
        apply step_error_preserves _ e _ _
          ((sp_clients_endpoints_get env _ ctx4).trans h4)
        intro epid ctx5 h5
        apply step_error_preserves _ e _ _ ((sp_clients_patch env _ _ _ ctx5).trans h5)
        intro _ ctx6 h6
        apply step_error_preserves _ e _ _ ((sp_clients_patch env _ _ _ ctx6).trans h6)
        intro _ ctx7 h7
        apply step_error_preserves _ e _ _ ((sp_clients_execute_sql env _ ctx7).trans h7)
        intro _ ctx8 h8
        apply step_error_preserves _ e _ _ ((sp_clients_execute_sql env _ ctx8).trans h8)
        intro _ ctx9 h9
        apply step_error_preserves _ e _ _ ((sp_clients_execute_sql env _ ctx9).trans h9)
        intro _ ctx10 h10
        apply step_error_preserves _ e _ _ ((sp_clients_secret env _ ctx10).trans h10)
        intro secret ctx11 h11 hcontra
        cases hcontra

theorem claim_C10_witness :
    (use_credentials sampleCfg insertFailEnv "u" "c" emptyCtx).1 =
      Except.error (PyErr.runtimeError ("SQL execution failed: " ++ "err")) ∧
    (use_credentials sampleCfg insertFailEnv "u" "c" emptyCtx).2.st.sp_clients =
      emptyCtx.st.sp_clients :=
  ⟨rfl, claim_C10 sampleCfg insertFailEnv "u" "c" emptyCtx
    (PyErr.runtimeError ("SQL execution failed: " ++ "err")) rfl⟩

/-! ## Extraction succeeds on recognized shapes -/

theorem strParts_append (parts : List Json) (s : String)
    (h : strParts parts = true) : strParts (parts ++ [Json.str s]) = true := by
  simp only [strParts, List.all_append] at *
  simp [h]

theorem pyJoin_ok (sep : String) (parts : List Json) (h : strParts parts = true) :
    ∃ s, pyJoin sep parts = Except.ok s := by
  have h' : (parts.all (fun p => match p with | Json.str _ => true | _ => false)) = true := h
  unfold pyJoin
  rw [if_pos h']
  exact ⟨_, rfl⟩

theorem foldBlocks_ok (blocks : List Json) :
    ∀ parts : List Json, blocks.all recognizedBlock = true → strParts parts = true →
      ∃ parts', foldBlocks blocks parts = Except.ok parts' ∧ strParts parts' = true := by
  induction blocks with
  | nil => exact fun parts _ hp => ⟨parts, rfl, hp⟩
  | cons b bs ih =>
    intro parts hall hp
    simp only [List.all_cons, Bool.and_eq_true] at hall
    obtain ⟨hb, hbs⟩ := hall
    cases b with
    | obj bf =>
      simp only [foldBlocks]
      by_cases ht : jsonEqStr (dictFind bf "type") "output_text" = true
      · rw [if_pos ht]
        have htext : ∃ t, (dictFind bf "text").getD (Json.str "") = Json.str t := by
          simp only [recognizedBlock] at hb
          rw [if_pos ht] at hb
          rcases hfind : dictFind bf "text" with _ | v
          · exact ⟨"", rfl⟩
          · rw [hfind] at hb
            cases v with
            | str s => exact ⟨s, rfl⟩
            | null => simp at hb
            | bool b => simp at hb
            | num n => simp at hb
            | arr l => simp at hb
            | obj o => simp at hb

        rcases htext with ⟨t, ht'⟩
        rw [ht']
        exact ih _ hbs (strParts_append _ _ hp)
      · rw [if_neg ht]
        exact ih _ hbs hp
    | null => simp [recognizedBlock] at hb
    | bool b => simp [recognizedBlock] at hb
    | num n => simp [recognizedBlock] at hb
    | str s => simp [recognizedBlock] at hb
    | arr l => simp [recognizedBlock] at hb

theorem extractItem_ok (item : Json) (parts : List Json)
    (hi : recognizedItem item = true) (hp : strParts parts = true) :
    ∃ parts', extractItem item parts = Except.ok parts' ∧ strParts parts' = true := by
  cases item with
  | obj fs =>
    simp only [extractItem]
    by_cases hm : jsonEqStr (dictFind fs "type") "message" = true
    · rw [if_pos hm]
      simp only [recognizedItem] at hi
      rw [if_pos hm] at hi
      rcases hfind : dictFind fs "content" with _ | v
      · simp only [hfind] at hi ⊢
        exact ⟨parts, rfl, hp⟩
      · simp only [hfind] at hi ⊢
        cases v with
        | arr blocks => exact foldBlocks_ok blocks parts hi hp
        | null => simp at hi
        | bool b => simp at hi
        | num n => simp at hi
        | str s => simp at hi
        | obj fs' => simp at hi
    · rw [if_neg hm]
      simp only [recognizedItem] at hi
      rw [if_neg hm] at hi
      by_cases hany : fs.any (fun f => f.1 == "text") = true
      · rw [if_pos hany]
        have hsome : (fs.find? (fun f => f.1 == "text")).isSome = true := by
          rw [List.find?_isSome]
          simpa [List.any_eq_true] using hany
        rcases Option.isSome_iff_exists.mp hsome with ⟨y, hy⟩
        have hw : dictFind fs "text" = some y.2 := by
          unfold dictFind
          rw [hy]
          rfl
        simp only [hw] at hi ⊢
        cases hy2 : y.2 with
        | str t =>
          exact ⟨parts ++ [Json.str t], rfl, strParts_append _ _ hp⟩
        | null => rw [hy2] at hi; simp at hi
        | bool b => rw [hy2] at hi; simp at hi
        | num n => rw [hy2] at hi; simp at hi
        | arr l => rw [hy2] at hi; simp at hi
        | obj fs' => rw [hy2] at hi; simp at hi
      · rw [if_neg hany]
        exact ⟨parts, rfl, hp⟩
  | str s => exact ⟨parts ++ [Json.str s], rfl, strParts_append _ _ hp⟩
  | null => exact ⟨parts, rfl, hp⟩
  | bool b => exact ⟨parts, rfl, hp⟩
  | num n => exact ⟨parts, rfl, hp⟩
  | arr l => exact ⟨parts, rfl, hp⟩

theorem foldItems_ok (items : List Json) :
    ∀ parts : List Json, items.all recognizedItem = true → strParts parts = true →
      ∃ parts', foldItems items parts = Except.ok parts' ∧ strParts parts' = true := by
  induction items with
  | nil => exact fun parts _ hp => ⟨parts, rfl, hp⟩
  | cons it its ih =>
    intro parts hall hp
    simp only [List.all_cons, Bool.and_eq_true] at hall
    rcases extractItem_ok it parts hall.1 hp with ⟨parts', he, hp'⟩
    simp only [foldItems, he]
    exact ih parts' hall.2 hp'

/-- Extraction returns text, never an exception, on every recognized
response body. -/
theorem extract_ok_of_recognized (raw : List (String × Json))
    (h : recognizedBody raw = true) :
    ∃ s, _extract_response_text raw = Except.ok s := by
  unfold recognizedBody at h
  unfold _extract_response_text
  rcases hout : outputOf raw with _ | out
  · simp only [hout]
    exact ⟨_, rfl⟩
  · simp only [hout] at h ⊢
    by_cases hfal : out.falsy = true
    · rw [if_pos hfal]
      exact ⟨_, rfl⟩
    · rw [if_neg hfal]
      unfold recognizedOutput at h
      rw [if_neg hfal] at h
      have hiter : ∃ items : List Json, pyIter out = Except.ok items ∧
          items.all recognizedItem = true := by
        cases out with
        | arr items => exact ⟨items, rfl, h⟩
        | obj fields =>
          refine ⟨_, rfl, ?_⟩
          rw [List.all_eq_true]
          intro x hx
          rw [List.mem_map] at hx
          rcases hx with ⟨f, _, hfx⟩
          rw [← hfx]
          rfl
        | str s =>
          refine ⟨_, rfl, ?_⟩
          rw [List.all_eq_true]
          intro x hx
          rw [List.mem_map] at hx
          rcases hx with ⟨ch, _, hch⟩
          rw [← hch]
          rfl
        | null => simp at h
        | bool b => simp at h
        | num n => simp at h
      rcases hiter with ⟨items, hit, hall⟩
      simp only [hit]
      rcases foldItems_ok items [] hall rfl with ⟨parts', hfold, hp'⟩
      simp only [hfold]
      by_cases hemp : parts'.isEmpty = true
      · rw [if_pos hemp]
        exact ⟨_, rfl⟩
      · rw [if_neg hemp]
        exact pyJoin_ok _ _ hp'

/-- C8 (amended): the chat turn never raises on transport or remote
failure — it returns a formatted error string — and returns text for every
recognized response body; the original claim's "never raises for any
response body" fails for malformed bodies (see the counterexample). -/
theorem claim_C8 (cfg : Config) (env : Env) (msg : String) (history : List ChatMsg)
    (u c : String) (ctx : Ctx) :
    (∀ emsg, env.invokeResp = Except.error emsg →
      (query_endpoint cfg env msg history u c ctx).1 =
        Except.ok ("Error querying endpoint: " ++ emsg)) ∧
    (∀ raw, env.invokeResp = Except.ok raw → recognizedBody raw = true →
      ∃ s, (query_endpoint cfg env msg history u c ctx).1 = Except.ok s) := by
  constructor
  · intro emsg he
    unfold query_endpoint
    rw [he]
  · intro raw hr hrec
    unfold query_endpoint
    rw [hr]
    exact extract_ok_of_recognized raw hrec

/-- C8 counterexample: with the response body `{"output": 5}` — whose
`output` is truthy but not iterable — the chat turn propagates Python's
`TypeError` instead of returning text, refuting "never raises for any
response body". -/
theorem claim_C8_counterexample :
    (query_endpoint sampleCfg badBodyEnv "hi" [] "u" "c" emptyCtx).1 =
      Except.error (PyErr.typeError "'int' object is not iterable") := rfl

theorem claim_C8_witness :
    (query_endpoint sampleCfg sampleEnv "hi" [] "u" "c" emptyCtx).1 =
      Except.ok ("Error querying endpoint: " ++ "connection refused") :=
  (claim_C8 sampleCfg sampleEnv "hi" [] "u" "c" emptyCtx).1 "connection refused" rfl

end ChatApp
